import Mathlib

/-!
Shallow embedding of the task CRUD layer of the `api_backend` repository
(`src/crud/task.py`, `src/schemas/task.py`, `src/models/task.py`), together
with theorems settling the specification claims about it.

Modelling conventions:
* A Python `datetime` is a wall-clock value (minutes, as an `Int`) plus an
  optional UTC offset in minutes (`none` = a naive datetime).
* The pytz timezone database is a finite name → offset map (`tzOffset`);
  `dateutil.parser.parse` is a finite partial map (`parseDt`).  Which concrete
  names/strings resolve is irrelevant to the claims.
* The SQLAlchemy session/table is a `List Task`; `db.add`+`commit` appends,
  an `IntegrityError` (duplicate primary key) triggers rollback, i.e. the
  list is returned unchanged.
* `raise ValueError(...)` / `HTTPException` become `Except Failure`, one
  constructor per failure message, named as in the specification's taxonomy.
* Pydantic's `model_dump(exclude_unset=True)` is reflected by wrapping every
  updatable field in a `Patch` marker (`unset` = key absent from the dump).
-/

namespace ApiBackend

/-- A Python `datetime`: wall-clock minutes plus an optional UTC offset in
minutes.  `tzoff = none` models a naive datetime. -/
structure Datetime where
  wall : Int
  tzoff : Option Int
deriving DecidableEq, Repr

/-- The UTC instant of an aware datetime (Python compares aware datetimes by
their UTC instant, `wall - offset`).  Only applied to aware values. -/
def Datetime.instant (d : Datetime) : Int :=
  d.wall - d.tzoff.getD 0

/-- The dynamic type of the `deadline` value flowing into the CRUD layer:
the code's `isinstance(deadline, str)` test distinguishes a raw string from
an already-parsed datetime. -/
inductive DeadlineField where
  | fromStr (s : String)
  | fromDt (d : Datetime)
deriving DecidableEq, Repr

/-- The failure taxonomy: one constructor per distinct `ValueError` message /
`HTTPException` raised by `src/crud/task.py`, named as in the spec. -/
inductive Failure where
  | invalidTimezone
  | missingTitle
  | invalidDeadlineFormat
  | deadlinePast
  | invalidState
  | notFound
  | persistenceConflict
deriving DecidableEq, Repr

/-- A persisted task row (`models/task.py`).  `deadline` keeps the dynamic
`DeadlineField` type because `create_task` inserts the raw `model_dump`
value. -/
structure Task where
  id : String
  title : String
  description : Option String
  user_id : String
  priority : Option String
  deadline : Option DeadlineField
  created_at : Datetime
  updated_at : Datetime
  state : String
deriving DecidableEq, Repr

/-- The creation payload as `create_task` receives it (dynamic deadline).
Defaults mirror `TaskBase`: `priority` defaults to `'low'`. -/
structure TaskCreateRaw where
  title : String
  description : Option String := none
  priority : Option String := some "low"
  deadline : Option DeadlineField := none
deriving DecidableEq, Repr

/-- Present/absent marker for one field of a partial-update payload:
`unset` models a key absent from `model_dump(exclude_unset=True)`. -/
inductive Patch (α : Type) where
  | unset
  | set (v : α)
deriving DecidableEq, Repr

def Patch.getD {α : Type} : Patch α → α → α
  | .unset, a => a
  | .set v, _ => v

/-- The update payload as `update_task` receives it (dynamic deadline);
every field of `TaskUpdate` is `Optional[...] = None`, so a set field may
still carry an explicit `None`. -/
structure TaskUpdateRaw where
  title : Patch (Option String) := .unset
  description : Patch (Option String) := .unset
  priority : Patch (Option String) := .unset
  deadline : Patch (Option DeadlineField) := .unset
  state : Patch (Option String) := .unset
deriving DecidableEq, Repr

/-- The `TaskCreate` pydantic schema (`schemas/task.py`): `deadline` is typed
`Optional[datetime]`, parsed at the boundary, never a string. -/
structure TaskCreate where
  title : String
  description : Option String := none
  priority : Option String := some "low"
  deadline : Option Datetime := none
deriving DecidableEq, Repr

/-- What the schema-validated creation payload looks like to the CRUD layer. -/
def TaskCreate.toRaw (c : TaskCreate) : TaskCreateRaw :=
  { title := c.title
    description := c.description
    priority := c.priority
    deadline := c.deadline.map .fromDt }

/-- The `TaskUpdate` pydantic schema (`schemas/task.py`): `deadline` is typed
`Optional[datetime]`. -/
structure TaskUpdate where
  title : Patch (Option String) := .unset
  description : Patch (Option String) := .unset
  priority : Patch (Option String) := .unset
  deadline : Patch (Option Datetime) := .unset
  state : Patch (Option String) := .unset
deriving DecidableEq, Repr

/-- What the schema-validated update payload looks like to the CRUD layer. -/
def TaskUpdate.toRaw (p : TaskUpdate) : TaskUpdateRaw :=
  { title := p.title
    description := p.description
    priority := p.priority
    deadline := match p.deadline with
      | .unset => .unset
      | .set v => .set (v.map .fromDt)
    state := p.state }

/-- Models the pytz timezone database used via `pytz.timezone(timezone)`:
a finite map from timezone name to UTC offset in minutes; `none` models
`UnknownTimeZoneError`. -/
def tzOffset : String → Option Int
  | "UTC" => some 0
  | "America/Sao_Paulo" => some (-180)
  | "Asia/Tokyo" => some 540
  | _ => none

/-- Models `dateutil.parser.parse` as a finite partial map from strings to
datetimes; `none` models the `ValueError` raised on unparseable text. -/
def parseDt : String → Option Datetime
  | "2024-12-31T23:59:00" => some ⟨28927919, none⟩
  | "2024-12-31T23:59:00+00:00" => some ⟨28927919, some 0⟩
  | _ => none

/-- Modelled from the spec: the `TaskState` enumeration that `crud/task.py`
and the tests import from `schemas.task` but that is absent from the sources
under `src/` — a three-member string enumeration `{to_do, in_progress,
done}` ("`state`: one of `{to_do, in_progress, done}`"). -/
inductive TaskState where
  | to_do
  | in_progress
  | done
deriving DecidableEq, Repr

/-- The string value of a `TaskState` member (it is a `str` enum: members
compare equal to their string values). -/
def TaskState.value : TaskState → String
  | .to_do => "to_do"
  | .in_progress => "in_progress"
  | .done => "done"

/-- `TaskState.__members__.values()` as the list of member string values. -/
def taskStateValues : List String :=
  [TaskState.to_do.value, TaskState.in_progress.value, TaskState.done.value]

/-- `title.strip() == ""`: a Python string strips to empty exactly when all
its characters are whitespace. -/
def stripIsEmpty (s : String) : Bool :=
  s.data.all (fun c => c.isWhitespace)

/-- `not title or title.strip() == ""`: the blank-title test used by both
create and update. -/
def titleBlank (s : String) : Bool :=
  s == "" || stripIsEmpty s

instance {ε α : Type} [DecidableEq ε] [DecidableEq α] :
    DecidableEq (Except ε α) := fun
  | .ok a, .ok b =>
    if h : a = b then .isTrue (by rw [h]) else .isFalse (by simp [h])
  | .error a, .error b =>
    if h : a = b then .isTrue (by rw [h]) else .isFalse (by simp [h])
  | .ok _, .error _ => .isFalse (by simp)
  | .error _, .ok _ => .isFalse (by simp)

/-- Python truthiness of the `deadline` attribute in `if task.deadline:`
(create path): `None` and the empty string are falsy, datetimes are truthy. -/
def pyTruthyDeadline : Option DeadlineField → Bool
  | none => false
  | some (.fromStr s) => !(s == "")
  | some (.fromDt _) => true

/-- `deadline.replace(tzinfo=user_tz)` guarded by `tzinfo is None`: attach
the resolved timezone's offset when the value is naive, keep it otherwise. -/
def normalizeDt (off : Int) (d : Datetime) : Datetime :=
  if d.tzoff = none then { d with tzoff := some off } else d

/-- The parse-then-normalize pipeline applied to a deadline value: a string
goes through `parser.parse` (`none` = unparseable), then a naive result gets
the resolved timezone's offset attached. -/
def resolveDeadline (off : Int) : DeadlineField → Option Datetime
  | .fromStr s => (parseDt s).map (normalizeDt off)
  | .fromDt d => some (normalizeDt off d)

/-- The deadline validation block of `create_task` (lines 36-47).  It only
*checks*: the computed normalized value is assigned to `task.deadline`,
which was already dumped into `task_data`, so it never reaches the insert.
`now.instant = nowUtc` since `now = datetime.now(tz=user_tz)`. -/
def createDeadlineCheck (off nowUtc : Int) (dl : Option DeadlineField) :
    Except Failure Unit :=
  if pyTruthyDeadline dl then
    match dl with
    | none => .ok ()
    | some df =>
      match resolveDeadline off df with
      | none => .error .invalidDeadlineFormat
      | some d => if d.instant < nowUtc then .error .deadlinePast else .ok ()
  else .ok ()

/-- `create_task` (`crud/task.py` lines 13-60).  `nowUtc` is the UTC instant
of `datetime.now(tz=user_tz)`; `newId` is the fresh `str(uuid.uuid4())`
produced by the `Task.id` column default.  Returns the result together with
the store after the call (unchanged on every failure: validation precedes
persistence, and an integrity error rolls back). -/
def createTask (task : TaskCreateRaw) (user_id : String) (store : List Task)
    (timezone : String) (nowUtc : Int) (newId : String) :
    Except Failure Task × List Task :=
  match tzOffset timezone with
  | none => (.error .invalidTimezone, store)
  | some off =>
    let now : Datetime := ⟨nowUtc + off, some off⟩
    if titleBlank task.title then (.error .missingTitle, store)
    else
      match createDeadlineCheck off nowUtc task.deadline with
      | .error e => (.error e, store)
      | .ok _ =>
        -- `task_data = task.model_dump()` ran before the deadline block, so
        -- the inserted row carries the payload's deadline exactly as given.
        let db_task : Task :=
          { id := newId
            title := task.title
            description := task.description
            user_id := user_id
            priority := task.priority
            deadline := task.deadline
            created_at := now
            updated_at := now
            state := "to_do" }
        if store.any (fun t => t.id == newId) then
          (.error .persistenceConflict, store)
        else (.ok db_task, store ++ [db_task])

/-- `get_task_by_id` (lines 71-78): `.first()` on the id filter, raising when
absent. -/
def getTaskById (task_id : String) (store : List Task) : Except Failure Task :=
  match store.find? (fun t => t.id == task_id) with
  | none => .error .notFound
  | some t => .ok t

/-- `get_tasks_by_user_id` (lines 63-68): all rows whose `user_id` matches. -/
def getTasksByUserId (user_id : String) (store : List Task) : List Task :=
  store.filter (fun t => t.user_id == user_id)

/-- Replace the first row with the given id (the ORM object returned by
`.first()` is mutated in place, then committed). -/
def replaceById (task_id : String) (t' : Task) : List Task → List Task
  | [] => []
  | t :: ts => if t.id == task_id then t' :: ts else t :: replaceById task_id t' ts

/-- Remove the first row with the given id (`db.delete(db_task)` on the
object returned by `.first()`). -/
def removeById (task_id : String) : List Task → List Task
  | [] => []
  | t :: ts => if t.id == task_id then ts else t :: removeById task_id ts

/-- `if 'title' in task_data and (not task_data['title'] or
task_data['title'].strip() == "")` of `update_task`. -/
def titlePatchBad : Patch (Option String) → Bool
  | .unset => false
  | .set none => true
  | .set (some s) => titleBlank s

/-- `if 'state' in task_data and task_data['state'] not in
TaskState.__members__.values()` of `update_task` (an explicit `None` is not
a member either). -/
def statePatchBad : Patch (Option String) → Bool
  | .unset => false
  | .set none => true
  | .set (some s) => !(taskStateValues.contains s)

/-- The deadline block of `update_task` (lines 105-117): runs only when the
key is present with a non-`None` value; on success the normalized datetime
*replaces* `task_data['deadline']`, so here (unlike create) the stored value
is the normalized one. -/
def updateDeadlineStep (off nowUtc : Int) :
    Patch (Option DeadlineField) → Except Failure (Patch (Option DeadlineField))
  | .unset => .ok .unset
  | .set none => .ok (.set none)
  | .set (some df) =>
    match resolveDeadline off df with
    | none => .error .invalidDeadlineFormat
    | some d =>
      if d.instant < nowUtc then .error .deadlinePast
      else .ok (.set (some (.fromDt d)))

/-- The `setattr` loop of `update_task` (lines 119-121): apply exactly the
fields present in `task_data` plus the refreshed `updated_at`; `dl` is the
final deadline value (the `.set none` title case was rejected earlier). -/
def applyUpd (t : Task) (p : TaskUpdateRaw) (now : Datetime)
    (dl : Option DeadlineField) : Task :=
  { t with
    title := match p.title with
      | .set (some s) => s
      | _ => t.title
    description := match p.description with
      | .set v => v
      | .unset => t.description
    priority := match p.priority with
      | .set v => v
      | .unset => t.priority
    state := match p.state with
      | .set (some s) => s
      | _ => t.state
    deadline := dl
    updated_at := now }

/-- `update_task` (`crud/task.py` lines 81-131): resolve the timezone, fetch
the row, validate title/state/deadline in that order (all before any
mutation), then apply the set fields and `updated_at` and commit. -/
def updateTask (task_id : String) (task : TaskUpdateRaw) (store : List Task)
    (timezone : String) (nowUtc : Int) : Except Failure Task × List Task :=
  match tzOffset timezone with
  | none => (.error .invalidTimezone, store)
  | some off =>
    match getTaskById task_id store with
    | .error e => (.error e, store)
    | .ok db_task =>
      let now : Datetime := ⟨nowUtc + off, some off⟩
      if titlePatchBad task.title then (.error .missingTitle, store)
      else if statePatchBad task.state then (.error .invalidState, store)
      else
        match updateDeadlineStep off nowUtc task.deadline with
        | .error e => (.error e, store)
        | .ok ddl =>
          let u := applyUpd db_task task now (ddl.getD db_task.deadline)
          (.ok u, replaceById task_id u store)

/-- `delete_task_by_id` (lines 133-143): fetch, delete, commit; an absent id
surfaces as a 404 `NotFound`. -/
def deleteTaskById (task_id : String) (store : List Task) :
    Except Failure Bool × List Task :=
  match getTaskById task_id store with
  | .error _ => (.error .notFound, store)
  | .ok _ => (.ok true, removeById task_id store)

/-! ## Characterization lemmas -/

/-- `create_task` either fails and leaves the store untouched, or succeeds
and appends exactly the new row. -/
theorem createTask_shape (task : TaskCreateRaw) (uid : String) (store : List Task)
    (tz : String) (nowUtc : Int) (newId : String) :
    (∃ e, createTask task uid store tz nowUtc newId = (.error e, store)) ∨
    (∃ u, createTask task uid store tz nowUtc newId = (.ok u, store ++ [u])) := by
  unfold createTask
  cases tzOffset tz <;> dsimp only
  · exact .inl ⟨_, rfl⟩
  · split
    · exact .inl ⟨_, rfl⟩
    · split
      · exact .inl ⟨_, rfl⟩
      · split
        · exact .inl ⟨_, rfl⟩
        · exact .inr ⟨_, rfl⟩

theorem createTask_store_of_error (task : TaskCreateRaw) (uid : String)
    (store : List Task) (tz : String) (nowUtc : Int) (newId : String) (e : Failure)
    (h : (createTask task uid store tz nowUtc newId).1 = .error e) :
    (createTask task uid store tz nowUtc newId).2 = store := by
  rcases createTask_shape task uid store tz nowUtc newId with ⟨e', he⟩ | ⟨u, hu⟩
  · rw [he]
  · rw [hu] at h; cases h

theorem createTask_store_of_ok (task : TaskCreateRaw) (uid : String)
    (store : List Task) (tz : String) (nowUtc : Int) (newId : String) (u : Task)
    (h : (createTask task uid store tz nowUtc newId).1 = .ok u) :
    (createTask task uid store tz nowUtc newId).2 = store ++ [u] := by
  rcases createTask_shape task uid store tz nowUtc newId with ⟨e', he⟩ | ⟨u', hu⟩
  · rw [he] at h; cases h
  · rw [hu] at h ⊢; cases h; rfl

/-- Success characterization of `create_task`: the row inserted is built from
the pre-validation `model_dump`, so its `deadline` is the payload's deadline
exactly as given. -/
theorem createTask_ok_iff (task : TaskCreateRaw) (uid : String)
    (store : List Task) (tz : String) (nowUtc : Int) (newId : String) (off : Int)
    (hoff : tzOffset tz = some off) (u : Task) :
    (createTask task uid store tz nowUtc newId).1 = .ok u ↔
      titleBlank task.title = false ∧
      createDeadlineCheck off nowUtc task.deadline = .ok () ∧
      store.any (fun t => t.id == newId) = false ∧
      u = { id := newId, title := task.title, description := task.description,
            user_id := uid, priority := task.priority, deadline := task.deadline,
            created_at := ⟨nowUtc + off, some off⟩,
            updated_at := ⟨nowUtc + off, some off⟩,
            state := "to_do" } := by
  unfold createTask
  rw [hoff]
  dsimp only
  constructor
  · intro h
    split at h
    · cases h
    · rename_i htitle
      split at h
      · cases h
      · rename_i v hchk
        split at h
        · cases h
        · rename_i hdup
          refine ⟨by simpa using htitle, ?_, by simpa using hdup, ?_⟩
          · cases v; exact hchk
          · injection h with h; exact h.symm
  · rintro ⟨h1, h2, h3, rfl⟩
    rw [if_neg (by simp [h1]), h2, if_neg (by simp [h3])]

/-- `update_task` either fails and leaves the store untouched, or succeeds
and replaces the fetched row in place. -/
theorem updateTask_shape (task_id : String) (task : TaskUpdateRaw)
    (store : List Task) (tz : String) (nowUtc : Int) :
    (∃ e, updateTask task_id task store tz nowUtc = (.error e, store)) ∨
    (∃ u, updateTask task_id task store tz nowUtc = (.ok u, replaceById task_id u store)) := by
  unfold updateTask
  cases tzOffset tz <;> dsimp only
  · exact .inl ⟨_, rfl⟩
  · cases getTaskById task_id store <;> dsimp only
    · exact .inl ⟨_, rfl⟩
    · split
      · exact .inl ⟨_, rfl⟩
      · split
        · exact .inl ⟨_, rfl⟩
        · split
          · exact .inl ⟨_, rfl⟩
          · exact .inr ⟨_, rfl⟩

theorem updateTask_store_of_error (task_id : String) (p : TaskUpdateRaw)
    (store : List Task) (tz : String) (nowUtc : Int) (e : Failure)
    (h : (updateTask task_id p store tz nowUtc).1 = .error e) :
    (updateTask task_id p store tz nowUtc).2 = store := by
  rcases updateTask_shape task_id p store tz nowUtc with ⟨e', he⟩ | ⟨u, hu⟩
  · rw [he]
  · rw [hu] at h; cases h

/-- Success characterization of `update_task`: validation passes and the
result is the fetched row with exactly the set fields and `updated_at`
applied. -/
theorem updateTask_ok_iff (task_id : String) (p : TaskUpdateRaw) (store : List Task)
    (tz : String) (nowUtc : Int) (off : Int) (t : Task)
    (hoff : tzOffset tz = some off) (hget : getTaskById task_id store = .ok t) (u : Task) :
    (updateTask task_id p store tz nowUtc).1 = .ok u ↔
      titlePatchBad p.title = false ∧ statePatchBad p.state = false ∧
      ∃ ddl, updateDeadlineStep off nowUtc p.deadline = .ok ddl ∧
        u = applyUpd t p ⟨nowUtc + off, some off⟩ (ddl.getD t.deadline) := by
  unfold updateTask
  rw [hoff, hget]
  dsimp only
  constructor
  · intro h
    split at h
    · cases h
    · rename_i h1
      split at h
      · cases h
      · rename_i h2
        split at h
        · cases h
        · rename_i ddl hddl
          refine ⟨by simpa using h1, by simpa using h2, ddl, hddl, ?_⟩
          injection h with h; exact h.symm
  · rintro ⟨h1, h2, ddl, hddl, rfl⟩
    rw [if_neg (by simp [h1]), if_neg (by simp [h2]), hddl]

/-! ## Inversion lemmas -/

theorem createTask_ok_inv (task : TaskCreateRaw) (uid : String) (store : List Task)
    (tz : String) (nowUtc : Int) (newId : String) (u : Task)
    (h : (createTask task uid store tz nowUtc newId).1 = .ok u) :
    ∃ off, tzOffset tz = some off ∧
      titleBlank task.title = false ∧
      createDeadlineCheck off nowUtc task.deadline = .ok () ∧
      store.any (fun t => t.id == newId) = false ∧
      u = { id := newId, title := task.title, description := task.description,
            user_id := uid, priority := task.priority, deadline := task.deadline,
            created_at := ⟨nowUtc + off, some off⟩,
            updated_at := ⟨nowUtc + off, some off⟩,
            state := "to_do" } := by
  cases hoff : tzOffset tz with
  | none => unfold createTask at h; rw [hoff] at h; cases h
  | some off =>
    exact ⟨off, rfl, (createTask_ok_iff task uid store tz nowUtc newId off hoff u).mp h⟩

theorem updateTask_ok_inv (task_id : String) (p : TaskUpdateRaw) (store : List Task)
    (tz : String) (nowUtc : Int) (u : Task)
    (h : (updateTask task_id p store tz nowUtc).1 = .ok u) :
    ∃ off t, tzOffset tz = some off ∧ getTaskById task_id store = .ok t ∧
      titlePatchBad p.title = false ∧ statePatchBad p.state = false ∧
      ∃ ddl, updateDeadlineStep off nowUtc p.deadline = .ok ddl ∧
        u = applyUpd t p ⟨nowUtc + off, some off⟩ (ddl.getD t.deadline) := by
  cases hoff : tzOffset tz with
  | none => unfold updateTask at h; rw [hoff] at h; cases h
  | some off =>
    cases hget : getTaskById task_id store with
    | error e => unfold updateTask at h; rw [hoff, hget] at h; cases h
    | ok t =>
      exact ⟨off, t, rfl, rfl,
        (updateTask_ok_iff task_id p store tz nowUtc off t hoff hget u).mp h⟩

theorem createTask_error_inv (task : TaskCreateRaw) (uid : String) (store : List Task)
    (tz : String) (nowUtc : Int) (newId : String) (e : Failure)
    (h : (createTask task uid store tz nowUtc newId).1 = .error e) :
    e = .invalidTimezone ∨ e = .missingTitle ∨
    (∃ off, tzOffset tz = some off ∧
      createDeadlineCheck off nowUtc task.deadline = .error e) ∨
    e = .persistenceConflict := by
  unfold createTask at h
  revert h
  cases hoff : tzOffset tz <;> dsimp only <;> intro h
  · injection h with h; exact .inl h.symm
  · split at h
    · injection h with h; exact .inr (.inl h.symm)
    · split at h
      · rename_i e' hchk
        injection h with h
        subst h
        exact .inr (.inr (.inl ⟨_, rfl, hchk⟩))
      · split at h
        · injection h with h; exact .inr (.inr (.inr h.symm))
        · cases h

theorem updateTask_error_inv (task_id : String) (p : TaskUpdateRaw) (store : List Task)
    (tz : String) (nowUtc : Int) (e : Failure)
    (h : (updateTask task_id p store tz nowUtc).1 = .error e) :
    e = .invalidTimezone ∨ getTaskById task_id store = .error e ∨
    e = .missingTitle ∨ e = .invalidState ∨
    (∃ off, tzOffset tz = some off ∧
      updateDeadlineStep off nowUtc p.deadline = .error e) := by
  unfold updateTask at h
  revert h
  cases hoff : tzOffset tz <;> dsimp only <;> intro h
  · injection h with h; exact .inl h.symm
  · cases hget : getTaskById task_id store <;> rw [hget] at h <;> dsimp only at h
    · injection h with h; subst h; exact .inr (.inl rfl)
    · split at h
      · injection h with h; exact .inr (.inr (.inl h.symm))
      · split at h
        · injection h with h; exact .inr (.inr (.inr (.inl h.symm)))
        · split at h
          · rename_i e' hddl
            injection h with h
            subst h
            exact .inr (.inr (.inr (.inr ⟨_, rfl, hddl⟩)))
          · cases h

/-- Under unique ids, no row with the removed id survives `removeById`. -/
theorem find?_removeById (task_id : String) (store : List Task)
    (hnd : (store.map Task.id).Nodup) :
    (removeById task_id store).find? (fun t => t.id == task_id) = none := by
  induction store with
  | nil => rfl
  | cons t ts ih =>
    simp only [List.map_cons, List.nodup_cons] at hnd
    obtain ⟨hni, hnd⟩ := hnd
    unfold removeById
    by_cases h : t.id = task_id
    · rw [if_pos (by simp [h])]
      rw [List.find?_eq_none]
      intro x hx
      simp only [beq_iff_eq]
      intro hxid
      have hmem : x.id ∈ List.map Task.id ts := List.mem_map_of_mem Task.id hx
      rw [hxid, ← h] at hmem
      exact hni hmem
    · rw [if_neg (by simp [h])]
      rw [List.find?_cons_of_neg _ (by simp [h])]
      exact ih hnd

/-- A schema-typed deadline (`Optional[datetime]`, mapped through `fromDt`)
can never make the create-side deadline check report a format error. -/
theorem createDeadlineCheck_fromDt_no_format (off nowUtc : Int) (dl : Option Datetime) :
    createDeadlineCheck off nowUtc (dl.map .fromDt) ≠ .error .invalidDeadlineFormat := by
  cases dl with
  | none => simp [createDeadlineCheck, pyTruthyDeadline, Option.map_none']
  | some d =>
    unfold createDeadlineCheck
    rw [Option.map_some']
    split
    · dsimp only [resolveDeadline]
      split <;> simp
    · simp

/-- A schema-typed deadline can never make the update-side deadline step
report a format error. -/
theorem updateDeadlineStep_fromDt_no_format (off nowUtc : Int)
    (pd : Patch (Option Datetime)) :
    updateDeadlineStep off nowUtc
        (match pd with | .unset => .unset | .set v => .set (v.map .fromDt)) ≠
      .error .invalidDeadlineFormat := by
  cases pd with
  | unset => simp [updateDeadlineStep]
  | set v =>
    cases v with
    | none => simp [updateDeadlineStep, Option.map_none']
    | some d =>
      dsimp only [Option.map_some']
      unfold updateDeadlineStep
      dsimp only [resolveDeadline]
      split <;> simp

/-! ## Claim theorems -/

/-- Claim C1: the claim says a task persisted by create or update with a
non-null deadline always carries a timezone offset.  The create path violates
this: `task_data = task.model_dump()` runs before the normalization block,
which assigns the offset-attached value to `task.deadline` only, so the row
inserted by `Task(**task_data)` keeps the original naive deadline.  Witnessed
here at a concrete input: create with a naive deadline one day ahead succeeds
and the persisted row's deadline still has no offset (`tzoff = none`). -/
theorem create_persists_naive_deadline :
    (createTask ⟨"t", none, some "low", some (.fromDt ⟨1440, none⟩)⟩
        "u1" [] "UTC" 0 "tid1").1 =
      .ok ⟨"tid1", "t", none, "u1", some "low", some (.fromDt ⟨1440, none⟩),
        ⟨0, some 0⟩, ⟨0, some 0⟩, "to_do"⟩ ∧
    (createTask ⟨"t", none, some "low", some (.fromDt ⟨1440, none⟩)⟩
        "u1" [] "UTC" 0 "tid1").2 =
      [⟨"tid1", "t", none, "u1", some "low", some (.fromDt ⟨1440, none⟩),
        ⟨0, some 0⟩, ⟨0, some 0⟩, "to_do"⟩] ∧
    (Datetime.mk 1440 none).tzoff = none := by
  exact ⟨by decide, by decide, rfl⟩

/-- Claim C2: a successful partial update changes exactly the fields present
in the payload plus `updated_at` (refreshed to the operation's now); every
field absent from the payload — in particular `user_id` (the owner) and
`created_at` — keeps its pre-update value, and the store is the old store
with only that row replaced. -/
theorem update_partial_merge_frame (task_id : String) (p : TaskUpdateRaw)
    (store : List Task) (tz : String) (nowUtc off : Int) (t u : Task)
    (hoff : tzOffset tz = some off)
    (hget : getTaskById task_id store = .ok t)
    (hupd : (updateTask task_id p store tz nowUtc).1 = .ok u) :
    u.id = t.id ∧ u.user_id = t.user_id ∧ u.created_at = t.created_at ∧
    u.updated_at = ⟨nowUtc + off, some off⟩ ∧
    (p.title = .unset → u.title = t.title) ∧
    (p.description = .unset → u.description = t.description) ∧
    (p.priority = .unset → u.priority = t.priority) ∧
    (p.state = .unset → u.state = t.state) ∧
    (p.deadline = .unset → u.deadline = t.deadline) ∧
    (∀ v, p.description = .set v → u.description = v) ∧
    (∀ v, p.priority = .set v → u.priority = v) ∧
    (∀ s, p.title = .set (some s) → u.title = s) ∧
    (∀ s, p.state = .set (some s) → u.state = s) ∧
    (updateTask task_id p store tz nowUtc).2 = replaceById task_id u store := by
  obtain ⟨h1, h2, ddl, hddl, rfl⟩ :=
    (updateTask_ok_iff task_id p store tz nowUtc off t hoff hget u).mp hupd
  refine ⟨rfl, rfl, rfl, rfl, ?_, ?_, ?_, ?_, ?_, ?_, ?_, ?_, ?_, ?_⟩
  · intro h; simp [applyUpd, h]
  · intro h; simp [applyUpd, h]
  · intro h; simp [applyUpd, h]
  · intro h; simp [applyUpd, h]
  · intro h
    rw [h] at hddl
    unfold updateDeadlineStep at hddl
    injection hddl with hddl
    subst hddl
    simp [applyUpd, Patch.getD]
  · intro v h; simp [applyUpd, h]
  · intro v h; simp [applyUpd, h]
  · intro s h; simp [applyUpd, h]
  · intro s h; simp [applyUpd, h]
  · rcases updateTask_shape task_id p store tz nowUtc with ⟨e, he⟩ | ⟨u', hu⟩
    · rw [he] at hupd; cases hupd
    · rw [hu] at hupd ⊢
      injection hupd with hupd
      rw [hupd]

/-- Witness for C2: updating only `description` of a stored task keeps id,
owner and `created_at`, refreshes `updated_at` to the new now, and replaces
just that row. -/
theorem update_partial_merge_frame_witness :
    (Task.mk "a" "T" (some "d") "u1" (some "low") none ⟨0, some 0⟩ ⟨5, some 0⟩
        "to_do").id =
      (Task.mk "a" "T" none "u1" (some "low") none ⟨0, some 0⟩ ⟨0, some 0⟩
        "to_do").id ∧
    (Task.mk "a" "T" (some "d") "u1" (some "low") none ⟨0, some 0⟩ ⟨5, some 0⟩
        "to_do").user_id =
      (Task.mk "a" "T" none "u1" (some "low") none ⟨0, some 0⟩ ⟨0, some 0⟩
        "to_do").user_id ∧
    (Task.mk "a" "T" (some "d") "u1" (some "low") none ⟨0, some 0⟩ ⟨5, some 0⟩
        "to_do").created_at =
      (Task.mk "a" "T" none "u1" (some "low") none ⟨0, some 0⟩ ⟨0, some 0⟩
        "to_do").created_at ∧
    (Task.mk "a" "T" (some "d") "u1" (some "low") none ⟨0, some 0⟩ ⟨5, some 0⟩
        "to_do").updated_at = ⟨5, some 0⟩ ∧
    (updateTask "a" { description := .set (some "d") }
      [Task.mk "a" "T" none "u1" (some "low") none ⟨0, some 0⟩ ⟨0, some 0⟩
        "to_do"] "UTC" 5).2 =
      replaceById "a"
        (Task.mk "a" "T" (some "d") "u1" (some "low") none ⟨0, some 0⟩
          ⟨5, some 0⟩ "to_do")
        [Task.mk "a" "T" none "u1" (some "low") none ⟨0, some 0⟩ ⟨0, some 0⟩
          "to_do"] := by
  obtain ⟨h1, h2, h3, h4, -, -, -, -, -, -, -, -, -, h14⟩ :=
    update_partial_merge_frame "a" { description := .set (some "d") }
      [Task.mk "a" "T" none "u1" (some "low") none ⟨0, some 0⟩ ⟨0, some 0⟩ "to_do"]
      "UTC" 5 0
      (Task.mk "a" "T" none "u1" (some "low") none ⟨0, some 0⟩ ⟨0, some 0⟩ "to_do")
      (Task.mk "a" "T" (some "d") "u1" (some "low") none ⟨0, some 0⟩ ⟨5, some 0⟩ "to_do")
      rfl (by decide) (by decide)
  exact ⟨h1, h2, h3, h4, h14⟩

/-- Claim C3: create with an otherwise valid payload whose normalized
deadline is strictly before the resolved now fails with `DeadlinePast` and
leaves the store untouched; more generally every failure leaves the store
untouched and success appends exactly one row. -/
theorem create_past_deadline_fails_and_write_discipline
    (task : TaskCreateRaw) (uid : String) (store : List Task) (tz : String)
    (nowUtc : Int) (newId : String) :
    (∀ off df d, tzOffset tz = some off → titleBlank task.title = false →
      task.deadline = some df → pyTruthyDeadline task.deadline = true →
      resolveDeadline off df = some d → d.instant < nowUtc →
      createTask task uid store tz nowUtc newId = (.error .deadlinePast, store)) ∧
    (∀ e, (createTask task uid store tz nowUtc newId).1 = .error e →
      (createTask task uid store tz nowUtc newId).2 = store) ∧
    (∀ u, (createTask task uid store tz nowUtc newId).1 = .ok u →
      (createTask task uid store tz nowUtc newId).2 = store ++ [u]) := by
  refine ⟨?_, createTask_store_of_error task uid store tz nowUtc newId,
    createTask_store_of_ok task uid store tz nowUtc newId⟩
  intro off df d hoff htitle hdf htr hres hlt
  have hchk : createDeadlineCheck off nowUtc task.deadline = .error .deadlinePast := by
    unfold createDeadlineCheck
    rw [hdf] at htr ⊢
    rw [if_pos htr]
    dsimp only
    rw [hres]
    dsimp only
    rw [if_pos hlt]
  unfold createTask
  rw [hoff]
  dsimp only
  rw [if_neg (by simp [htitle]), hchk]

/-- Witness for C3: a creation payload with an aware deadline 100 minutes in
the past fails with `DeadlinePast` and writes nothing. -/
theorem create_past_deadline_witness :
    createTask ⟨"t", none, some "low", some (.fromDt ⟨-100, some 0⟩)⟩
      "u1" [] "UTC" 0 "tid1" = (.error .deadlinePast, []) :=
  (create_past_deadline_fails_and_write_discipline
    ⟨"t", none, some "low", some (.fromDt ⟨-100, some 0⟩)⟩ "u1" [] "UTC" 0 "tid1").1
    0 (.fromDt ⟨-100, some 0⟩) ⟨-100, some 0⟩ rfl (by decide) rfl (by decide)
    (by decide) (by decide)

/-- Claim C4: for a valid creation payload (resolvable timezone, non-blank
title, deadline passing the check) and a fresh id, create succeeds; the
returned task has `state = to_do`, `created_at = updated_at` = the single
now in the resolved timezone, owner = the caller, and an id distinct from
every prior task's id. -/
theorem create_success_populates_fields
    (task : TaskCreateRaw) (uid : String) (store : List Task) (tz : String)
    (nowUtc : Int) (newId : String) (off : Int)
    (hoff : tzOffset tz = some off)
    (htitle : titleBlank task.title = false)
    (hdl : createDeadlineCheck off nowUtc task.deadline = .ok ())
    (hfresh : ∀ t ∈ store, t.id ≠ newId) :
    ∃ u, (createTask task uid store tz nowUtc newId).1 = .ok u ∧
      u.state = "to_do" ∧ u.created_at = u.updated_at ∧
      u.created_at = ⟨nowUtc + off, some off⟩ ∧
      u.user_id = uid ∧ u.id = newId ∧ ∀ t ∈ store, t.id ≠ u.id := by
  have hany : store.any (fun t => t.id == newId) = false := by
    simp only [List.any_eq_false]
    intro t ht
    simpa using hfresh t ht
  refine ⟨_, (createTask_ok_iff task uid store tz nowUtc newId off hoff _).mpr
    ⟨htitle, hdl, hany, rfl⟩, rfl, rfl, rfl, rfl, rfl, hfresh⟩

/-- Witness for C4: creating a deadline-free task in an empty store succeeds
with the stated field population. -/
theorem create_success_witness :
    ∃ u, (createTask ⟨"t", none, some "low", none⟩ "u1" [] "UTC" 0 "tid1").1 = .ok u ∧
      u.state = "to_do" ∧ u.created_at = u.updated_at ∧
      u.created_at = ⟨0, some 0⟩ ∧
      u.user_id = "u1" ∧ u.id = "tid1" ∧ ∀ t ∈ ([] : List Task), t.id ≠ u.id :=
  create_success_populates_fields ⟨"t", none, some "low", none⟩ "u1" [] "UTC" 0 "tid1" 0
    rfl (by decide) (by decide) (by intro t ht; cases ht)

/-- Claim C5: for an existing task, an update whose payload sets `state` to
a value outside `{to_do, in_progress, done}` (or to an explicit null) fails
with `InvalidState` and leaves the store — hence the stored task, every
field, `updated_at` included — unchanged. -/
theorem update_invalid_state_rejected (task_id : String) (p : TaskUpdateRaw)
    (store : List Task) (tz : String) (nowUtc off : Int) (t : Task) (v : Option String)
    (hoff : tzOffset tz = some off)
    (hget : getTaskById task_id store = .ok t)
    (htitle : titlePatchBad p.title = false)
    (hstate : p.state = .set v)
    (hbad : ∀ s, v = some s → s ∉ taskStateValues) :
    updateTask task_id p store tz nowUtc = (.error .invalidState, store) := by
  have hsb : statePatchBad p.state = true := by
    rw [hstate]
    cases v with
    | none => rfl
    | some s =>
      have := hbad s rfl
      simp [statePatchBad, List.contains, List.elem_eq_mem, this]
  unfold updateTask
  rw [hoff, hget]
  dsimp only
  rw [if_neg (by simp [htitle]), if_pos hsb]

/-- Witness for C5: updating a stored task with `state = "bogus"` fails with
`InvalidState` and the store is unchanged. -/
theorem update_invalid_state_witness :
    updateTask "a" { state := .set (some "bogus") }
      [Task.mk "a" "T" none "u1" (some "low") none ⟨0, some 0⟩ ⟨0, some 0⟩ "to_do"]
      "UTC" 5 =
    (.error .invalidState,
      [Task.mk "a" "T" none "u1" (some "low") none ⟨0, some 0⟩ ⟨0, some 0⟩ "to_do"]) :=
  update_invalid_state_rejected "a" { state := .set (some "bogus") }
    [Task.mk "a" "T" none "u1" (some "low") none ⟨0, some 0⟩ ⟨0, some 0⟩ "to_do"]
    "UTC" 5 0
    (Task.mk "a" "T" none "u1" (some "low") none ⟨0, some 0⟩ ⟨0, some 0⟩ "to_do")
    (some "bogus") rfl (by decide) rfl rfl
    (fun s hs => by rw [← Option.some.inj hs]; decide)

/-- Claim C6, counterexample: the claim says a payload supplying a priority
outside `{low, medium, high}` is rejected rather than stored, but neither
the schema nor the CRUD layer validates priority — create with priority
`"urgent"` succeeds and persists `"urgent"`. -/
theorem create_stores_unvalidated_priority :
    (createTask ⟨"t", none, some "urgent", none⟩ "u1" [] "UTC" 0 "tid1").1 =
      .ok ⟨"tid1", "t", none, "u1", some "urgent", none, ⟨0, some 0⟩, ⟨0, some 0⟩, "to_do"⟩ ∧
    (createTask ⟨"t", none, some "urgent", none⟩ "u1" [] "UTC" 0 "tid1").2 =
      [⟨"tid1", "t", none, "u1", some "urgent", none, ⟨0, some 0⟩, ⟨0, some 0⟩, "to_do"⟩] ∧
    "urgent" ∉ (["low", "medium", "high"] : List String) := by
  exact ⟨by decide, by decide, by decide⟩

/-- Claim C6, amended: `priority` defaults to `"low"` when omitted at
creation, and create and update persist any supplied priority string exactly
as given, without membership validation. -/
theorem priority_default_and_passthrough :
    (∀ s : String, ({ title := s } : TaskCreateRaw).priority = some "low") ∧
    (∀ task uid store tz nowUtc newId u,
      (createTask task uid store tz nowUtc newId).1 = .ok u → u.priority = task.priority) ∧
    (∀ task_id p store tz nowUtc u v, p.priority = .set v →
      (updateTask task_id p store tz nowUtc).1 = .ok u → u.priority = v) := by
  refine ⟨fun s => rfl, ?_, ?_⟩
  · intro task uid store tz nowUtc newId u h
    obtain ⟨off, hoff, _, _, _, rfl⟩ := createTask_ok_inv task uid store tz nowUtc newId u h
    rfl
  · intro task_id p store tz nowUtc u v hv h
    obtain ⟨off, t, hoff, hget, h1, h2, ddl, hddl, rfl⟩ :=
      updateTask_ok_inv task_id p store tz nowUtc u h
    simp [applyUpd, hv]

/-- Witness for amended C6: the schema default, and a successful create
persisting the out-of-enumeration priority `"urgent"` as given. -/
theorem priority_default_and_passthrough_witness :
    ({ title := "x" } : TaskCreateRaw).priority = some "low" ∧
    (Task.mk "tid1" "t" none "u1" (some "urgent") none ⟨0, some 0⟩ ⟨0, some 0⟩
        "to_do").priority =
      (TaskCreateRaw.mk "t" none (some "urgent") none).priority := by
  refine ⟨priority_default_and_passthrough.1 "x", ?_⟩
  exact priority_default_and_passthrough.2.1 ⟨"t", none, some "urgent", none⟩
    "u1" [] "UTC" 0 "tid1"
    (Task.mk "tid1" "t" none "u1" (some "urgent") none ⟨0, some 0⟩ ⟨0, some 0⟩ "to_do")
    (by decide)

/-- Claim C7: deleting a non-existent id fails with `NotFound` and changes
nothing; deleting an existing id (ids being unique) reports success and
removes the row so a subsequent `getById` fails with `NotFound` — deletion
is atomic. -/
theorem delete_by_id_semantics (task_id : String) (store : List Task)
    (hnd : (store.map Task.id).Nodup) :
    (getTaskById task_id store = .error .notFound →
      deleteTaskById task_id store = (.error .notFound, store)) ∧
    (∀ t, getTaskById task_id store = .ok t →
      (deleteTaskById task_id store).1 = .ok true ∧
      getTaskById task_id (deleteTaskById task_id store).2 = .error .notFound) := by
  constructor
  · intro h
    unfold deleteTaskById
    rw [h]
  · intro t h
    unfold deleteTaskById
    rw [h]
    refine ⟨rfl, ?_⟩
    unfold getTaskById
    rw [find?_removeById task_id store hnd]

/-- Witness for C7: deleting the only stored task succeeds and the follow-up
lookup fails with `NotFound`. -/
theorem delete_by_id_witness :
    (deleteTaskById "a"
      [Task.mk "a" "T" none "u1" (some "low") none ⟨0, some 0⟩ ⟨0, some 0⟩
        "to_do"]).1 = .ok true ∧
    getTaskById "a"
      (deleteTaskById "a"
        [Task.mk "a" "T" none "u1" (some "low") none ⟨0, some 0⟩ ⟨0, some 0⟩
          "to_do"]).2 = .error .notFound :=
  (delete_by_id_semantics "a"
    [Task.mk "a" "T" none "u1" (some "low") none ⟨0, some 0⟩ ⟨0, some 0⟩ "to_do"]
    (by decide)).2
    (Task.mk "a" "T" none "u1" (some "low") none ⟨0, some 0⟩ ⟨0, some 0⟩ "to_do")
    (by decide)

/-- Claim C8: `listByOwner u` returns exactly the stored tasks owned by `u`
— membership in the result is membership in the store with matching owner —
and the result is empty (not a failure) when `u` owns nothing. -/
theorem list_by_owner_exact (uid : String) (store : List Task) :
    (∀ t, t ∈ getTasksByUserId uid store ↔ t ∈ store ∧ t.user_id = uid) ∧
    ((∀ t ∈ store, t.user_id ≠ uid) → getTasksByUserId uid store = []) := by
  constructor
  · intro t
    simp [getTasksByUserId, List.mem_filter]
  · intro h
    unfold getTasksByUserId
    rw [List.filter_eq_nil_iff]
    intro t ht
    simp [h t ht]

/-- Witness for C8: an owner with no tasks gets the empty list. -/
theorem list_by_owner_witness :
    getTasksByUserId "nobody"
      [Task.mk "a" "T" none "u1" (some "low") none ⟨0, some 0⟩ ⟨0, some 0⟩
        "to_do"] = [] :=
  (list_by_owner_exact "nobody"
    [Task.mk "a" "T" none "u1" (some "low") none ⟨0, some 0⟩ ⟨0, some 0⟩ "to_do"]).2
    (by decide)

/-- Claim C9: payloads typed by the request schemas carry `deadline` as an
already-parsed optional datetime, so the string-parse branches guarded by
the is-string test are unreachable and neither create nor update can return
`InvalidDeadlineFormat`. -/
theorem schema_payloads_never_invalid_deadline_format (c : TaskCreate) (p : TaskUpdate)
    (task_id uid tz newId : String) (store : List Task) (nowUtc : Int) :
    (createTask c.toRaw uid store tz nowUtc newId).1 ≠ .error .invalidDeadlineFormat ∧
    (updateTask task_id p.toRaw store tz nowUtc).1 ≠ .error .invalidDeadlineFormat := by
  constructor
  · intro h
    rcases createTask_error_inv _ _ _ _ _ _ _ h with h' | h' | ⟨off, hoff, hchk⟩ | h'
    · cases h'
    · cases h'
    · exact createDeadlineCheck_fromDt_no_format off nowUtc c.deadline hchk
    · cases h'
  · intro h
    rcases updateTask_error_inv _ _ _ _ _ _ h with h' | h' | h' | h' | ⟨off, hoff, hddl⟩
    · cases h'
    · unfold getTaskById at h'
      revert h'
      cases store.find? (fun t => t.id == task_id) <;> dsimp only <;> intro h'
      · injection h' with h'; cases h'
      · cases h'
    · cases h'
    · cases h'
    · exact updateDeadlineStep_fromDt_no_format off nowUtc p.deadline hddl

/-- Witness for C9: a concrete schema-typed create and update, neither of
which returns `InvalidDeadlineFormat`. -/
theorem schema_payloads_witness :
    (createTask (TaskCreate.toRaw { title := "t" }) "u1" [] "UTC" 0 "tid1").1 ≠
      .error .invalidDeadlineFormat ∧
    (updateTask "a" (TaskUpdate.toRaw {})
      [Task.mk "a" "T" none "u1" (some "low") none ⟨0, some 0⟩ ⟨0, some 0⟩
        "to_do"] "UTC" 0).1 ≠ .error .invalidDeadlineFormat :=
  schema_payloads_never_invalid_deadline_format { title := "t" } {} "a" "u1" "UTC" "tid1"
    [Task.mk "a" "T" none "u1" (some "low") none ⟨0, some 0⟩ ⟨0, some 0⟩ "to_do"] 0

/-- Claim C10: an update payload that explicitly sets `deadline` to null
clears the stored deadline and succeeds for every clock value — the
parse/normalize/past-deadline pipeline is skipped on the null branch. -/
theorem update_null_deadline_clears (task_id : String) (p : TaskUpdateRaw)
    (store : List Task) (tz : String) (nowUtc off : Int) (t : Task)
    (hoff : tzOffset tz = some off)
    (hget : getTaskById task_id store = .ok t)
    (htitle : titlePatchBad p.title = false)
    (hstate : statePatchBad p.state = false)
    (hdl : p.deadline = .set none) :
    ∃ u, (updateTask task_id p store tz nowUtc).1 = .ok u ∧ u.deadline = none := by
  refine ⟨_, (updateTask_ok_iff task_id p store tz nowUtc off t hoff hget _).mpr
    ⟨htitle, hstate, .set none, by rw [hdl]; rfl, rfl⟩, ?_⟩
  simp [applyUpd, Patch.getD]

/-- Witness for C10: nulling the deadline of a task that has one succeeds
and clears it (at a now later than the old deadline, so the past-check
pipeline demonstrably did not run). -/
theorem update_null_deadline_witness :
    ∃ u, (updateTask "a" { deadline := .set none }
      [Task.mk "a" "T" none "u1" (some "low") (some (.fromDt ⟨10, some 0⟩))
        ⟨0, some 0⟩ ⟨0, some 0⟩ "to_do"] "UTC" 500).1 = .ok u ∧
      u.deadline = none :=
  update_null_deadline_clears "a" { deadline := .set none }
    [Task.mk "a" "T" none "u1" (some "low") (some (.fromDt ⟨10, some 0⟩))
      ⟨0, some 0⟩ ⟨0, some 0⟩ "to_do"] "UTC" 500 0
    (Task.mk "a" "T" none "u1" (some "low") (some (.fromDt ⟨10, some 0⟩))
      ⟨0, some 0⟩ ⟨0, some 0⟩ "to_do")
    rfl (by decide) rfl rfl rfl

end ApiBackend
